import Mathlib

/-!
# Verification of the deterministic underwriting calculation engine

A shallow embedding, over exact rational arithmetic, of the pure calculation
core of the loan-origination repository: the risk scorer and recommendation
logic (`src/tools/underwriting_tools.py`, `RiskScoringTool`), the loan pricer
(`LoanPricingTool`), the DTI calculator and credit tiering
(`src/tools/application_tools.py`), and the configured policy parameters
(`src/config/settings.py`). Python floats are modelled as `ℚ`, Python ints as
`ℤ` (term counts as `ℕ`); the configured globals become explicit parameters
with their documented defaults as constants.
-/

/-- Default of `MIN_CREDIT_SCORE` in `src/config/settings.py` (620). -/
def MIN_CREDIT_SCORE : ℤ := 620

/-- Default of the maximum DTI policy parameter in `src/config/settings.py`
(0.43). -/
def MAX_DTI : ℚ := 43 / 100

/-- Default of `BASE_INTEREST_RATE` in `src/config/settings.py` (7.5). -/
def BASE_INTEREST_RATE : ℚ := 15 / 2

/-- `RiskScoringTool._score_credit`. -/
def score_credit (score : ℤ) : ℚ :=
  if score ≥ 750 then 5
  else if score ≥ 700 then 10
  else if score ≥ 650 then 18
  else if score ≥ 620 then 23
  else 25

/-- `RiskScoringTool._score_dti`. -/
def score_dti (dti : ℚ) : ℚ :=
  if dti ≤ 20 / 100 then 5
  else if dti ≤ 30 / 100 then 10
  else if dti ≤ 36 / 100 then 15
  else if dti ≤ 43 / 100 then 20
  else 25

/-- `RiskScoringTool._score_income`: the loan-to-income quotient, with
income ≤ 0 treated as quotient 999. -/
def score_income (income loan_amount : ℚ) : ℚ :=
  let lti := if income > 0 then loan_amount / income else 999
  if lti ≤ 25 / 100 then 5
  else if lti ≤ 50 / 100 then 10
  else if lti ≤ 75 / 100 then 15
  else if lti ≤ 1 then 20
  else 25

/-- `RiskScoringTool._score_employment`. -/
def score_employment (years : ℚ) : ℚ :=
  if years ≥ 5 then 5
  else if years ≥ 2 then 10
  else if years ≥ 1 then 18
  else 25

/-- `min(bankruptcies * 15, 30)` from `RiskScoringTool._run`. -/
def bankruptcy_penalty (bankruptcies : ℤ) : ℚ :=
  min ((bankruptcies : ℚ) * 15) 30

/-- `total_risk` from `RiskScoringTool._run`:
`min(credit_risk + dti_risk + income_risk + employment_risk + bankruptcy_penalty, 100)`. -/
def total_risk (credit_score : ℤ) (dti annual_income years_employed : ℚ)
    (bankruptcies : ℤ) (loan_amount : ℚ) : ℚ :=
  min (score_credit credit_score + score_dti dti +
        score_income annual_income loan_amount +
        score_employment years_employed + bankruptcy_penalty bankruptcies) 100

/-- `RiskScoringTool._get_recommendation`, with the configured minimum credit
score and maximum DTI made explicit parameters (module globals in the source,
defaults 620 and 0.43). -/
def get_recommendation (min_credit_score : ℤ) (max_dti : ℚ)
    (risk_score : ℚ) (credit_score : ℤ) (dti : ℚ) : String :=
  if credit_score < min_credit_score then "DENY - Credit score below minimum"
  else if dti > max_dti then "DENY - DTI exceeds maximum"
  else if risk_score ≤ 35 then "APPROVE - Strong application"
  else if risk_score ≤ 55 then "APPROVE WITH CONDITIONS"
  else if risk_score ≤ 75 then "REFER TO SENIOR UNDERWRITER"
  else "DENY - High risk"

/-- `CreditCheckTool._get_credit_tier`. -/
def get_credit_tier (score : ℤ) : String :=
  if score ≥ 750 then "EXCELLENT"
  else if score ≥ 700 then "GOOD"
  else if score ≥ 650 then "FAIR"
  else if score ≥ 620 then "POOR"
  else "SUBPRIME"

/-- Credit-tier rate adjustment:
`RISK_TIERS.get(credit_tier, {}).get("rate_adjustment", 0)` over the table in
`src/config/settings.py`; an unknown tier yields 0. -/
def tier_adjustment (credit_tier : String) : ℚ :=
  if credit_tier = "EXCELLENT" then -(3 / 2)
  else if credit_tier = "GOOD" then -(1 / 2)
  else if credit_tier = "FAIR" then 1
  else if credit_tier = "POOR" then 5 / 2
  else 0

/-- Risk-level rate adjustment from `LoanPricingTool._run`; an unknown level
yields 0. -/
def risk_adjustment (risk_level : String) : ℚ :=
  if risk_level = "LOW" then -(1 / 2)
  else if risk_level = "MODERATE" then 1 / 2
  else if risk_level = "HIGH" then 3 / 2
  else if risk_level = "VERY_HIGH" then 3
  else 0

/-- `final_rate = max(base_rate + tier_adjustment + risk_adjustment, 5.0)`
from `LoanPricingTool._run`. -/
def final_rate (base_rate : ℚ) (credit_tier risk_level : String) : ℚ :=
  max (base_rate + tier_adjustment credit_tier + risk_adjustment risk_level) 5

/-- The full-precision fields computed by `LoanPricingTool._run` before the
2-decimal rounding applied at the reporting boundary. -/
structure LoanOffer where
  interest_rate : ℚ
  monthly_rate : ℚ
  monthly_payment : ℚ
  total_repayment : ℚ
  total_interest : ℚ
  first_payment_interest : ℚ
  first_payment_principal : ℚ
deriving Repr, DecidableEq

/-- `LoanPricingTool._run`: rate composition, amortization formula with the
straight-line fallback for `monthly_rate = 0`, and the derived totals. -/
def loan_pricing (base_rate loan_amount : ℚ) (term_months : ℕ)
    (credit_tier risk_level : String) : LoanOffer :=
  let fr := final_rate base_rate credit_tier risk_level
  let r := fr / 100 / 12
  let mp :=
    if r > 0 then
      loan_amount * (r * (1 + r) ^ term_months) / ((1 + r) ^ term_months - 1)
    else loan_amount / (term_months : ℚ)
  { interest_rate := fr
    monthly_rate := r
    monthly_payment := mp
    total_repayment := mp * term_months
    total_interest := mp * term_months - loan_amount
    first_payment_interest := loan_amount * r
    first_payment_principal := mp - loan_amount * r }

/-- Round-half-to-even to an integer, the tie behavior of Python's `round`. -/
def round_half_even (q : ℚ) : ℤ :=
  if q - ⌊q⌋ < 1 / 2 then ⌊q⌋
  else if 1 / 2 < q - ⌊q⌋ then ⌊q⌋ + 1
  else if 2 ∣ ⌊q⌋ then ⌊q⌋ else ⌊q⌋ + 1

/-- Python's `round(x, 2)`: rounding to 2 decimals at the reporting boundary. -/
def round2 (q : ℚ) : ℚ := (round_half_even (q * 100) : ℚ) / 100

/-- The fields of the result dict built by `DTICalculatorTool._run`.
`current_dti` and `proposed_dti` are the reported percentages (ratio × 100,
rounded to 2 decimals). -/
structure DTIResult where
  monthly_income : ℚ
  current_dti : ℚ
  proposed_dti : ℚ
  passes_dti_check : Bool
deriving Repr, DecidableEq

/-- `DTICalculatorTool._run`, with the configured maximum DTI an explicit
parameter (module global in the source, default 0.43). A non-positive
monthly income makes both DTI quotients 0 instead of failing. -/
def dti_calculator (max_dti : ℚ)
    (annual_income monthly_debt_payments proposed_loan_payment : ℚ) :
    DTIResult :=
  let monthly_income := annual_income / 12
  let current := if monthly_income > 0
    then monthly_debt_payments / monthly_income else 0
  let proposed := if monthly_income > 0
    then (monthly_debt_payments + proposed_loan_payment) / monthly_income
    else 0
  { monthly_income := round2 monthly_income
    current_dti := round2 (current * 100)
    proposed_dti := round2 (proposed * 100)
    passes_dti_check := decide (proposed ≤ max_dti) }

/-- The policy parameters read once at engine construction (§6 of the design):
minimum credit score, maximum DTI, base interest rate. -/
structure EngineConfig where
  min_credit_score : ℤ
  max_dti : ℚ
  base_interest_rate : ℚ
deriving Repr, DecidableEq

/-- The single failure class the engine surfaces. -/
inductive ConfigurationError where
  | invalidParameter : String → ConfigurationError
deriving Repr, DecidableEq

/-- Modelled from the spec: engine construction with validation of the policy
parameters is described in §6/§7 of the design ("read once at engine
construction", "ConfigurationError ... raised immediately at construction")
but has no counterpart in the source, whose `settings.py` reads environment
values without any validation. A negative maximum DTI is the spec's example
of an invalid parameter and is rejected fatally at construction; valid
parameters produce the immutable configuration object. -/
def mkEngineConfig (min_credit_score : ℤ) (max_dti base_interest_rate : ℚ) :
    Except ConfigurationError EngineConfig :=
  if max_dti < 0 then
    Except.error (ConfigurationError.invalidParameter "max_dti")
  else
    Except.ok ⟨min_credit_score, max_dti, base_interest_rate⟩

/-! ## Helper lemmas -/

theorem loan_pricing_interest_rate (b la : ℚ) (n : ℕ) (t r : String) :
    (loan_pricing b la n t r).interest_rate = final_rate b t r := rfl

theorem loan_pricing_monthly_rate (b la : ℚ) (n : ℕ) (t r : String) :
    (loan_pricing b la n t r).monthly_rate = final_rate b t r / 100 / 12 := rfl

theorem loan_pricing_monthly_payment (b la : ℚ) (n : ℕ) (t r : String) :
    (loan_pricing b la n t r).monthly_payment =
      if final_rate b t r / 100 / 12 > 0 then
        la * (final_rate b t r / 100 / 12 *
            (1 + final_rate b t r / 100 / 12) ^ n) /
          ((1 + final_rate b t r / 100 / 12) ^ n - 1)
      else la / (n : ℚ) := rfl

theorem loan_pricing_total_repayment (b la : ℚ) (n : ℕ) (t r : String) :
    (loan_pricing b la n t r).total_repayment =
      (loan_pricing b la n t r).monthly_payment * n := rfl

theorem loan_pricing_total_interest (b la : ℚ) (n : ℕ) (t r : String) :
    (loan_pricing b la n t r).total_interest =
      (loan_pricing b la n t r).monthly_payment * n - la := rfl

theorem loan_pricing_first_payment_interest (b la : ℚ) (n : ℕ) (t r : String) :
    (loan_pricing b la n t r).first_payment_interest =
      la * (final_rate b t r / 100 / 12) := rfl

theorem loan_pricing_first_payment_principal (b la : ℚ) (n : ℕ) (t r : String) :
    (loan_pricing b la n t r).first_payment_principal =
      (loan_pricing b la n t r).monthly_payment -
        la * (final_rate b t r / 100 / 12) := rfl

theorem round_half_even_abs_le (q : ℚ) :
    |(round_half_even q : ℚ) - q| ≤ 1 / 2 := by
  have h0 : (⌊q⌋ : ℚ) ≤ q := Int.floor_le q
  have h1 : q < ⌊q⌋ + 1 := Int.lt_floor_add_one q
  unfold round_half_even
  split_ifs with ha hb hc <;> rw [abs_le] <;> push_cast <;>
    constructor <;> linarith

theorem round2_abs_le (q : ℚ) : |round2 q - q| ≤ 1 / 200 := by
  have h := round_half_even_abs_le (q * 100)
  unfold round2
  rw [show (round_half_even (q * 100) : ℚ) / 100 - q
      = ((round_half_even (q * 100) : ℚ) - q * 100) / 100 by ring, abs_div]
  rw [show |(100 : ℚ)| = 100 by norm_num]
  linarith

theorem round2_eq (q : ℚ) (n : ℤ) (h1 : (n : ℚ) ≤ q * 100)
    (h2 : q * 100 < (n : ℚ) + 1 / 2) : round2 q = (n : ℚ) / 100 := by
  have hf : ⌊q * 100⌋ = n := by
    rw [Int.floor_eq_iff]
    exact ⟨h1, by push_cast; linarith⟩
  unfold round2 round_half_even
  rw [hf]
  split_ifs with ha hb hc
  · rfl
  all_goals exact absurd h2 (by rw [not_lt] at ha ⊢; linarith)

/-! ## Claims -/

/-- C1: for every Risk Scorer input with bankruptcies ≥ 0, the total risk
score is the sum of the four component sub-scores and the bankruptcy penalty,
clamped at 100; the penalty is min(bankruptcies × 15, 30), so bankruptcies = 3
gives 30; and the extreme input (300, 0.9, 1, 0, 5, 1000000) scores
exactly 100. -/
theorem c1_total_risk_formula (credit_score : ℤ)
    (dti annual_income years_employed : ℚ) (bankruptcies : ℤ)
    (loan_amount : ℚ) (hb : 0 ≤ bankruptcies) :
    total_risk credit_score dti annual_income years_employed bankruptcies
        loan_amount
      = min (score_credit credit_score + score_dti dti +
          score_income annual_income loan_amount +
          score_employment years_employed +
          bankruptcy_penalty bankruptcies) 100
    ∧ bankruptcy_penalty bankruptcies = min ((bankruptcies : ℚ) * 15) 30
    ∧ bankruptcy_penalty 3 = 30
    ∧ total_risk 300 (9/10) 1 0 5 1000000 = 100 := by
  refine ⟨rfl, rfl, ?_, ?_⟩
  · norm_num [bankruptcy_penalty, min_def]
  · norm_num [total_risk, score_credit, score_dti, score_income,
      score_employment, bankruptcy_penalty, min_def]

theorem c1_witness :
    (0 : ℤ) ≤ 5 ∧ total_risk 300 (9/10) 1 0 5 1000000 = 100 :=
  ⟨by decide, (c1_total_risk_formula 300 (9/10) 1 0 5 1000000 (by decide)).2.2.2⟩

/-- C2: the recommendation is derived in priority order — credit score below
the configured minimum always denies, then DTI above the configured maximum
denies, otherwise the total-risk-score bands at 35/55/75 decide. -/
theorem c2_recommendation_priority (min_credit : ℤ) (max_dti : ℚ)
    (risk_score : ℚ) (credit_score : ℤ) (dti : ℚ) :
    (credit_score < min_credit →
      get_recommendation min_credit max_dti risk_score credit_score dti
        = "DENY - Credit score below minimum")
    ∧ (min_credit ≤ credit_score → max_dti < dti →
      get_recommendation min_credit max_dti risk_score credit_score dti
        = "DENY - DTI exceeds maximum")
    ∧ (min_credit ≤ credit_score → dti ≤ max_dti → risk_score ≤ 35 →
      get_recommendation min_credit max_dti risk_score credit_score dti
        = "APPROVE - Strong application")
    ∧ (min_credit ≤ credit_score → dti ≤ max_dti → 35 < risk_score →
      risk_score ≤ 55 →
      get_recommendation min_credit max_dti risk_score credit_score dti
        = "APPROVE WITH CONDITIONS")
    ∧ (min_credit ≤ credit_score → dti ≤ max_dti → 55 < risk_score →
      risk_score ≤ 75 →
      get_recommendation min_credit max_dti risk_score credit_score dti
        = "REFER TO SENIOR UNDERWRITER")
    ∧ (min_credit ≤ credit_score → dti ≤ max_dti → 75 < risk_score →
      get_recommendation min_credit max_dti risk_score credit_score dti
        = "DENY - High risk") := by
  unfold get_recommendation
  refine ⟨?_, ?_, ?_, ?_, ?_, ?_⟩ <;> intros <;> split_ifs <;>
    first | rfl | omega | linarith

theorem c2_witness :
    get_recommendation 620 (43/100) 0 300 0
      = "DENY - Credit score below minimum" :=
  (c2_recommendation_priority 620 (43/100) 0 300 0).1 (by decide)

/-- C9: every sub-score is at least 5 and the bankruptcy penalty is
non-negative when bankruptcies ≥ 0, so the total risk score always lies in
[20, 100], not the full [0, 100] range. -/
theorem c9_total_risk_range (credit_score : ℤ)
    (dti annual_income years_employed : ℚ) (bankruptcies : ℤ)
    (loan_amount : ℚ) (hb : 0 ≤ bankruptcies) :
    5 ≤ score_credit credit_score
    ∧ 5 ≤ score_dti dti
    ∧ 5 ≤ score_income annual_income loan_amount
    ∧ 5 ≤ score_employment years_employed
    ∧ 0 ≤ bankruptcy_penalty bankruptcies
    ∧ 20 ≤ total_risk credit_score dti annual_income years_employed
        bankruptcies loan_amount
    ∧ total_risk credit_score dti annual_income years_employed bankruptcies
        loan_amount ≤ 100 := by
  have h1 : 5 ≤ score_credit credit_score := by
    unfold score_credit; split_ifs <;> norm_num
  have h2 : 5 ≤ score_dti dti := by
    unfold score_dti; split_ifs <;> norm_num
  have h3 : 5 ≤ score_income annual_income loan_amount := by
    simp only [score_income]; split_ifs <;> norm_num
  have h4 : 5 ≤ score_employment years_employed := by
    unfold score_employment; split_ifs <;> norm_num
  have h5 : 0 ≤ bankruptcy_penalty bankruptcies :=
    le_min (mul_nonneg (by exact_mod_cast hb) (by norm_num)) (by norm_num)
  refine ⟨h1, h2, h3, h4, h5, ?_, min_le_right _ _⟩
  exact le_min (by linarith) (by norm_num)

theorem c9_witness :
    20 ≤ total_risk 720 (1/4) 50000 3 0 20000
    ∧ total_risk 720 (1/4) 50000 3 0 20000 ≤ 100 :=
  ⟨(c9_total_risk_range 720 (1/4) 50000 3 0 20000 (by decide)).2.2.2.2.2.1,
   (c9_total_risk_range 720 (1/4) 50000 3 0 20000 (by decide)).2.2.2.2.2.2⟩

/-- C3 (counterexample): at term_months = 0 the amortization denominator
(1 + monthly_rate)^term_months − 1 is 0 while monthly_rate is non-zero (the
rate floor keeps monthly_rate strictly positive), so the denominator is not
zero "only when monthly_rate = 0" and the amortization branch divides by
zero there. -/
theorem c3_counterexample :
    (loan_pricing (15/2) 10000 0 "GOOD" "LOW").monthly_rate ≠ 0
    ∧ (1 + (loan_pricing (15/2) 10000 0 "GOOD" "LOW").monthly_rate) ^ (0 : ℕ)
        - 1 = 0 := by
  constructor
  · rw [loan_pricing_monthly_rate]
    have h1 : tier_adjustment "GOOD" = -(1/2) := by simp [tier_adjustment]
    have h2 : risk_adjustment "LOW" = -(1/2) := by simp [risk_adjustment]
    rw [final_rate, h1, h2]
    norm_num [max_def]
  · norm_num

/-- C3 (amended): for every term_months ≥ 1, the Loan Pricer's monthly rate is
strictly positive (the 5.0 rate floor forces it), hence the amortization
denominator (1 + monthly_rate)^term_months − 1 is strictly positive and the
division never divides by zero; the monthly_rate = 0 straight-line fallback
is unreachable. -/
theorem c3_no_division_by_zero (base_rate loan_amount : ℚ) (term_months : ℕ)
    (credit_tier risk_level : String) (h : 1 ≤ term_months) :
    0 < (loan_pricing base_rate loan_amount term_months credit_tier
        risk_level).monthly_rate
    ∧ 0 < (1 + (loan_pricing base_rate loan_amount term_months credit_tier
        risk_level).monthly_rate) ^ term_months - 1 := by
  have h5 : (5 : ℚ) ≤ final_rate base_rate credit_tier risk_level :=
    le_max_right _ _
  have hfr : (0 : ℚ) < final_rate base_rate credit_tier risk_level := by
    linarith
  have hr : 0 < final_rate base_rate credit_tier risk_level / 100 / 12 := by
    positivity
  rw [loan_pricing_monthly_rate]
  refine ⟨hr, ?_⟩
  have h1 : 1 < (1 + final_rate base_rate credit_tier risk_level / 100 / 12)
      ^ term_months :=
    one_lt_pow₀ (by linarith) (by omega)
  linarith

theorem c3_witness :
    0 < (loan_pricing (15/2) 10000 36 "GOOD" "LOW").monthly_rate
    ∧ 0 < (1 + (loan_pricing (15/2) 10000 36 "GOOD" "LOW").monthly_rate)
        ^ 36 - 1 :=
  c3_no_division_by_zero (15/2) 10000 36 "GOOD" "LOW" (by norm_num)

/-- C4: for every LoanOffer, the full-precision fields satisfy
total_repayment = monthly_payment × term_months,
total_interest = total_repayment − loan_amount and
first_payment_interest + first_payment_principal = monthly_payment exactly,
and each reported (2-decimal-rounded) value is within 1/200 of the
full-precision one. -/
theorem c4_reporting_invariants (base_rate loan_amount : ℚ)
    (term_months : ℕ) (credit_tier risk_level : String) :
    (loan_pricing base_rate loan_amount term_months credit_tier
        risk_level).total_repayment =
      (loan_pricing base_rate loan_amount term_months credit_tier
        risk_level).monthly_payment * term_months
    ∧ (loan_pricing base_rate loan_amount term_months credit_tier
        risk_level).total_interest =
      (loan_pricing base_rate loan_amount term_months credit_tier
        risk_level).total_repayment - loan_amount
    ∧ (loan_pricing base_rate loan_amount term_months credit_tier
        risk_level).first_payment_interest +
      (loan_pricing base_rate loan_amount term_months credit_tier
        risk_level).first_payment_principal =
      (loan_pricing base_rate loan_amount term_months credit_tier
        risk_level).monthly_payment
    ∧ |round2 (loan_pricing base_rate loan_amount term_months credit_tier
        risk_level).monthly_payment -
      (loan_pricing base_rate loan_amount term_months credit_tier
        risk_level).monthly_payment| ≤ 1/200
    ∧ |round2 (loan_pricing base_rate loan_amount term_months credit_tier
        risk_level).total_repayment -
      (loan_pricing base_rate loan_amount term_months credit_tier
        risk_level).total_repayment| ≤ 1/200
    ∧ |round2 (loan_pricing base_rate loan_amount term_months credit_tier
        risk_level).total_interest -
      (loan_pricing base_rate loan_amount term_months credit_tier
        risk_level).total_interest| ≤ 1/200
    ∧ |round2 (loan_pricing base_rate loan_amount term_months credit_tier
        risk_level).first_payment_interest -
      (loan_pricing base_rate loan_amount term_months credit_tier
        risk_level).first_payment_interest| ≤ 1/200
    ∧ |round2 (loan_pricing base_rate loan_amount term_months credit_tier
        risk_level).first_payment_principal -
      (loan_pricing base_rate loan_amount term_months credit_tier
        risk_level).first_payment_principal| ≤ 1/200 := by
  refine ⟨rfl, rfl, ?_, round2_abs_le _, round2_abs_le _, round2_abs_le _,
    round2_abs_le _, round2_abs_le _⟩
  rw [loan_pricing_first_payment_interest, loan_pricing_first_payment_principal]
  ring

/-- C6 (spec-modelled): a missing/invalid policy parameter — e.g. a negative
maximum DTI — makes engine construction fail immediately with
ConfigurationError, and valid parameters construct the immutable
configuration with no other failure path. -/
theorem c6_configuration_error (min_credit : ℤ) (max_dti base_rate : ℚ) :
    (max_dti < 0 → mkEngineConfig min_credit max_dti base_rate
      = Except.error (ConfigurationError.invalidParameter "max_dti"))
    ∧ (0 ≤ max_dti → mkEngineConfig min_credit max_dti base_rate
      = Except.ok ⟨min_credit, max_dti, base_rate⟩) := by
  constructor
  · intro h; unfold mkEngineConfig; rw [if_pos h]
  · intro h; unfold mkEngineConfig; rw [if_neg (not_lt.mpr h)]

theorem c6_witness :
    mkEngineConfig 620 (-(1/2)) (15/2)
      = Except.error (ConfigurationError.invalidParameter "max_dti")
    ∧ mkEngineConfig 620 (43/100) (15/2)
      = Except.ok ⟨620, 43/100, 15/2⟩ :=
  ⟨(c6_configuration_error 620 (-(1/2)) (15/2)).1 (by norm_num),
   (c6_configuration_error 620 (43/100) (15/2)).2 (by norm_num)⟩

/-- C7: a non-positive monthly income (annual_income/12 ≤ 0) makes both DTI
ratios 0 with the DTI check passing (for any non-negative configured
maximum); in particular annual_income = 0 with monthly debt 500 yields
current_dti = 0, proposed_dti = 0 and passes_dti_check = true. -/
theorem c7_dti_nonpositive_income
    (max_dti annual_income monthly_debt proposed : ℚ)
    (h : annual_income / 12 ≤ 0) (hmax : 0 ≤ max_dti) :
    (dti_calculator max_dti annual_income monthly_debt proposed).current_dti
        = 0
    ∧ (dti_calculator max_dti annual_income monthly_debt
        proposed).proposed_dti = 0
    ∧ (dti_calculator max_dti annual_income monthly_debt
        proposed).passes_dti_check = true
    ∧ (dti_calculator (43/100) 0 500 0).current_dti = 0
    ∧ (dti_calculator (43/100) 0 500 0).proposed_dti = 0
    ∧ (dti_calculator (43/100) 0 500 0).passes_dti_check = true := by
  have hng : ¬ (annual_income / 12 > 0) := not_lt.mpr h
  have hz : round2 (0 : ℚ) = 0 := by
    norm_num [round2, round_half_even]
  refine ⟨?_, ?_, ?_, ?_, ?_, ?_⟩ <;>
    simp [dti_calculator, hng, hmax, hz] <;> norm_num

theorem c7_witness :
    (dti_calculator (43/100) 0 500 0).current_dti = 0
    ∧ (dti_calculator (43/100) 0 500 0).proposed_dti = 0
    ∧ (dti_calculator (43/100) 0 500 0).passes_dti_check = true :=
  ⟨(c7_dti_nonpositive_income (43/100) 0 500 0 (by norm_num)
      (by norm_num)).1,
   (c7_dti_nonpositive_income (43/100) 0 500 0 (by norm_num)
      (by norm_num)).2.1,
   (c7_dti_nonpositive_income (43/100) 0 500 0 (by norm_num)
      (by norm_num)).2.2.1⟩

/-- C8: the Loan Pricer's final rate is max(base + tier_adjustment +
risk_adjustment, 5.0); adjustments that would drive it below 5.0 clamp it to
exactly 5.0, and unknown tier or risk-level strings contribute 0. -/
theorem c8_final_rate_floor (base_rate loan_amount : ℚ) (term_months : ℕ)
    (credit_tier risk_level : String) :
    (loan_pricing base_rate loan_amount term_months credit_tier
        risk_level).interest_rate
      = max (base_rate + tier_adjustment credit_tier +
          risk_adjustment risk_level) 5
    ∧ (base_rate + tier_adjustment credit_tier + risk_adjustment risk_level
        ≤ 5 →
      (loan_pricing base_rate loan_amount term_months credit_tier
        risk_level).interest_rate = 5)
    ∧ (credit_tier ≠ "EXCELLENT" → credit_tier ≠ "GOOD" →
        credit_tier ≠ "FAIR" → credit_tier ≠ "POOR" →
        tier_adjustment credit_tier = 0)
    ∧ (risk_level ≠ "LOW" → risk_level ≠ "MODERATE" → risk_level ≠ "HIGH" →
        risk_level ≠ "VERY_HIGH" → risk_adjustment risk_level = 0) := by
  refine ⟨rfl, ?_, ?_, ?_⟩
  · intro h
    rw [loan_pricing_interest_rate, final_rate]
    exact max_eq_right h
  · intro h1 h2 h3 h4
    simp [tier_adjustment, h1, h2, h3, h4]
  · intro h1 h2 h3 h4
    simp [risk_adjustment, h1, h2, h3, h4]

theorem c8_witness :
    tier_adjustment "SUBPRIME" = 0
    ∧ risk_adjustment "UNKNOWN" = 0
    ∧ (loan_pricing 2 10000 36 "SUBPRIME" "UNKNOWN").interest_rate = 5 :=
  ⟨(c8_final_rate_floor 2 10000 36 "SUBPRIME" "UNKNOWN").2.2.1
      (by decide) (by decide) (by decide) (by decide),
   (c8_final_rate_floor 2 10000 36 "SUBPRIME" "UNKNOWN").2.2.2
      (by decide) (by decide) (by decide) (by decide),
   (c8_final_rate_floor 2 10000 36 "SUBPRIME" "UNKNOWN").2.1
      (by simp [tier_adjustment, risk_adjustment]; norm_num)⟩

/-- C10: the Credit Evaluator's SUBPRIME tier (credit_score < 620) has no
pricing-table entry, so its rate adjustment is 0 while POOR gets +2.5;
consequently the SUBPRIME final rate never exceeds the POOR final rate, and
is strictly below it whenever the POOR rate sits above the 5.0 floor. -/
theorem c10_subprime_priced_below_poor (base_rate loan_amount : ℚ)
    (term_months : ℕ) (risk_level : String) (credit_score : ℤ) :
    (credit_score < 620 → get_credit_tier credit_score = "SUBPRIME")
    ∧ tier_adjustment "SUBPRIME" = 0
    ∧ (loan_pricing base_rate loan_amount term_months "SUBPRIME"
        risk_level).interest_rate
      ≤ (loan_pricing base_rate loan_amount term_months "POOR"
        risk_level).interest_rate
    ∧ (5 < (loan_pricing base_rate loan_amount term_months "POOR"
        risk_level).interest_rate →
      (loan_pricing base_rate loan_amount term_months "SUBPRIME"
        risk_level).interest_rate
      < (loan_pricing base_rate loan_amount term_months "POOR"
        risk_level).interest_rate) := by
  have hs : tier_adjustment "SUBPRIME" = 0 := by simp [tier_adjustment]
  have hp : tier_adjustment "POOR" = 5/2 := by simp [tier_adjustment]
  refine ⟨?_, hs, ?_, ?_⟩
  · intro h
    unfold get_credit_tier
    split_ifs <;> first | rfl | omega
  · rw [loan_pricing_interest_rate, loan_pricing_interest_rate,
      final_rate, final_rate, hs, hp]
    exact max_le_max (by linarith) le_rfl
  · rw [loan_pricing_interest_rate, loan_pricing_interest_rate,
      final_rate, final_rate, hs, hp]
    intro h
    have h1 : 5 < base_rate + 5/2 + risk_adjustment risk_level := by
      rcases lt_max_iff.mp h with h' | h'
      · exact h'
      · exact absurd h' (lt_irrefl 5)
    rw [max_eq_left (le_of_lt h1)]
    exact max_lt_iff.mpr ⟨by linarith, by linarith⟩

theorem c10_witness :
    get_credit_tier 500 = "SUBPRIME"
    ∧ (loan_pricing (15/2) 10000 36 "SUBPRIME" "LOW").interest_rate
      < (loan_pricing (15/2) 10000 36 "POOR" "LOW").interest_rate :=
  ⟨(c10_subprime_priced_below_poor (15/2) 10000 36 "LOW" 500).1 (by decide),
   (c10_subprime_priced_below_poor (15/2) 10000 36 "LOW" 500).2.2.2
     (by rw [loan_pricing_interest_rate, final_rate]
         have hp : tier_adjustment "POOR" = 5/2 := by simp [tier_adjustment]
         have hl : risk_adjustment "LOW" = -(1/2) := by simp [risk_adjustment]
         rw [hp, hl]
         norm_num [max_def])⟩

theorem final_rate_good_low : final_rate (15/2) "GOOD" "LOW" = 13/2 := by
  have h1 : tier_adjustment "GOOD" = -(1/2) := by simp [tier_adjustment]
  have h2 : risk_adjustment "LOW" = -(1/2) := by simp [risk_adjustment]
  rw [final_rate, h1, h2]
  norm_num [max_def]

theorem mp_good_low :
    (loan_pricing (15/2) 10000 36 "GOOD" "LOW").monthly_payment =
      10000 * (13/2400 * ((2413 : ℚ)/2400) ^ 36) /
        (((2413 : ℚ)/2400) ^ 36 - 1) := by
  rw [loan_pricing_monthly_payment, final_rate_good_low]
  rw [if_pos (by norm_num : (13 : ℚ)/2/100/12 > 0)]
  norm_num

theorem round2_mp_good_low :
    round2 (loan_pricing (15/2) 10000 36 "GOOD" "LOW").monthly_payment
      = 30649/100 := by
  have h := round2_eq
    ((loan_pricing (15/2) 10000 36 "GOOD" "LOW").monthly_payment) 30649
    (by rw [mp_good_low]; push_cast; norm_num)
    (by rw [mp_good_low]; push_cast; norm_num)
  rw [h]
  norm_num

theorem round2_tr_good_low :
    round2 (loan_pricing (15/2) 10000 36 "GOOD" "LOW").total_repayment
      = 1103364/100 := by
  have h := round2_eq
    ((loan_pricing (15/2) 10000 36 "GOOD" "LOW").total_repayment) 1103364
    (by rw [loan_pricing_total_repayment, mp_good_low]; push_cast; norm_num)
    (by rw [loan_pricing_total_repayment, mp_good_low]; push_cast; norm_num)
  rw [h]
  norm_num

theorem round2_ti_good_low :
    round2 (loan_pricing (15/2) 10000 36 "GOOD" "LOW").total_interest
      = 103364/100 := by
  have h := round2_eq
    ((loan_pricing (15/2) 10000 36 "GOOD" "LOW").total_interest) 103364
    (by rw [loan_pricing_total_interest, mp_good_low]; push_cast; norm_num)
    (by rw [loan_pricing_total_interest, mp_good_low]; push_cast; norm_num)
  rw [h]
  norm_num

/-- C5 (counterexample): on loan_amount = 10000, term = 36, tier GOOD, risk
LOW with the default base rate 7.5, the 2-decimal-rounded monthly payment is
not $306.96 — it is $306.49. -/
theorem c5_counterexample :
    round2 (loan_pricing (15/2) 10000 36 "GOOD" "LOW").monthly_payment
      ≠ 30696/100 := by
  rw [round2_mp_good_low]
  norm_num

/-- C5 (amended): on loan_amount = 10000, term = 36, tier GOOD, risk LOW with
the default base rate 7.5, the final rate is 7.5 − 0.5 − 0.5 = 6.5%, the
monthly rate is 13/2400 ≈ 0.0054167, and up to 2-decimal rounding the
monthly payment is $306.49, the total repayment $11,033.64 and the total
interest $1,033.64 (not the spec's $306.96 / $11,050.56 / $1,050.56, which
correspond to a 6.6% rate). -/
theorem c5_pricing_good_low :
    (loan_pricing (15/2) 10000 36 "GOOD" "LOW").interest_rate = 13/2
    ∧ (loan_pricing (15/2) 10000 36 "GOOD" "LOW").monthly_rate = 13/2400
    ∧ |(loan_pricing (15/2) 10000 36 "GOOD" "LOW").monthly_rate
        - 54167/10000000| < 1/1000000
    ∧ round2 (loan_pricing (15/2) 10000 36 "GOOD" "LOW").monthly_payment
        = 30649/100
    ∧ round2 (loan_pricing (15/2) 10000 36 "GOOD" "LOW").total_repayment
        = 1103364/100
    ∧ round2 (loan_pricing (15/2) 10000 36 "GOOD" "LOW").total_interest
        = 103364/100 := by
  refine ⟨?_, ?_, ?_, round2_mp_good_low, round2_tr_good_low,
    round2_ti_good_low⟩
  · rw [loan_pricing_interest_rate, final_rate_good_low]
  · rw [loan_pricing_monthly_rate, final_rate_good_low]; norm_num
  · rw [loan_pricing_monthly_rate, final_rate_good_low]
    rw [abs_lt]
    constructor <;> norm_num
